import Mathlib

/- Shallow embedding of the dRonin revolution attitude module
   (src/flight/Modules/Attitude/revolution/attitude.c).

   Conventions of the embedding:
   - C `float` values are modelled as real numbers; the NaN checks of the
     source (`x == x`) are modelled by explicit validity flags on the inputs,
     since ℝ has no NaN.
   - `static` function-local variables and file-level globals become fields of
     explicit state structures threaded through each cycle.
   - `xQueueReceive` results become boolean inputs of the cycle (whether the
     corresponding sensor queue produced a sample this cycle).
   - Functions of modules that are not part of this source tree
     (CoordinateConversions.c, insgps.c, libm) are either modelled from the
     spec (doc comments say so) or kept abstract as parameters of the cycle. -/

noncomputable section

namespace DRonin

/-- A 3-component float vector (C `float[3]`). -/
@[ext]
structure V3 where
  x : ℝ
  y : ℝ
  z : ℝ

/-- A quaternion, fields named after the AttitudeActual UAVO fields. -/
@[ext]
structure Quat where
  q1 : ℝ
  q2 : ℝ
  q3 : ℝ
  q4 : ℝ

/-- Squared euclidean norm of a 3-vector, written with products as in the C. -/
def normSqV3 (v : V3) : ℝ := v.x * v.x + v.y * v.y + v.z * v.z

/-- Squared norm of a quaternion, q1*q1 + q2*q2 + q3*q3 + q4*q4. -/
def qNormSq (q : Quat) : ℝ := q.q1 * q.q1 + q.q2 * q.q2 + q.q3 * q.q3 + q.q4 * q.q4

/-- Modelled from the spec: `CrossProduct` of the missing
CoordinateConversions module, the standard 3-vector cross product used for the
gravity and magnetic orientation errors. -/
def crossProduct (a b : V3) : V3 :=
  ⟨a.y * b.z - b.y * a.z, a.z * b.x - b.z * a.x, a.x * b.y - b.x * a.y⟩

/-- The `DEG2RAD` constant of attitude.c (3.141592653589793f / 180.0f);
the float approximation of π is modelled as the real π. -/
def DEG2RAD : ℝ := Real.pi / 180

/-- Modelled from the spec: libm `atan2f`, used only to derive seed angles;
none of the claims depend on its values. -/
def atan2f (y x : ℝ) : ℝ :=
  if 0 < x then Real.arctan (y / x)
  else if x < 0 ∧ 0 ≤ y then Real.arctan (y / x) + Real.pi
  else if x < 0 ∧ y < 0 then Real.arctan (y / x) - Real.pi
  else if x = 0 ∧ 0 < y then Real.pi / 2
  else if x = 0 ∧ y < 0 then -(Real.pi / 2)
  else 0

/-- Modelled from the spec: `RPY2Quaternion` of the missing
CoordinateConversions module.  Converts roll/pitch/yaw in degrees to a unit
quaternion whose scalar component is sign-normalized to be non-negative. -/
def RPY2Quaternion (rpy : V3) : Quat :=
  let phi := DEG2RAD * rpy.x / 2
  let theta := DEG2RAD * rpy.y / 2
  let psi := DEG2RAD * rpy.z / 2
  let cphi := Real.cos phi
  let sphi := Real.sin phi
  let ctheta := Real.cos theta
  let stheta := Real.sin theta
  let cpsi := Real.cos psi
  let spsi := Real.sin psi
  let q0 := cphi * ctheta * cpsi + sphi * stheta * spsi
  let q1 := sphi * ctheta * cpsi - cphi * stheta * spsi
  let q2 := cphi * stheta * cpsi + sphi * ctheta * spsi
  let q3 := cphi * ctheta * spsi - sphi * stheta * cpsi
  if q0 < 0 then ⟨-q0, -q1, -q2, -q3⟩ else ⟨q0, q1, q2, q3⟩

/-- A 3x3 matrix as three rows. -/
structure Mat3 where
  r1 : V3
  r2 : V3
  r3 : V3

/-- Modelled from the spec: `Quaternion2R` of the missing
CoordinateConversions module, the body-from-earth rotation matrix of a
quaternion. -/
def quaternion2R (q : Quat) : Mat3 :=
  let q0s := q.q1 * q.q1
  let q1s := q.q2 * q.q2
  let q2s := q.q3 * q.q3
  let q3s := q.q4 * q.q4
  ⟨⟨q0s + q1s - q2s - q3s, 2 * (q.q2 * q.q3 + q.q1 * q.q4), 2 * (q.q2 * q.q4 - q.q1 * q.q3)⟩,
   ⟨2 * (q.q2 * q.q3 - q.q1 * q.q4), q0s - q1s + q2s - q3s, 2 * (q.q3 * q.q4 + q.q1 * q.q2)⟩,
   ⟨2 * (q.q2 * q.q4 + q.q1 * q.q3), 2 * (q.q3 * q.q4 - q.q1 * q.q2), q0s - q1s - q2s + q3s⟩⟩

/-- Modelled from the spec: `rot_mult` (transpose = false) of the missing
CoordinateConversions module: matrix times vector. -/
def rotMult (m : Mat3) (v : V3) : V3 :=
  ⟨m.r1.x * v.x + m.r1.y * v.y + m.r1.z * v.z,
   m.r2.x * v.x + m.r2.y * v.y + m.r2.z * v.z,
   m.r3.x * v.x + m.r3.y * v.y + m.r3.z * v.z⟩

/-! ## Shared UAVO data -/

/-- The GPSPosition UAVO fields used by the module; Latitude/Longitude are in
1e-7 degree units as in the source. -/
structure GPSPos where
  Latitude : ℝ
  Longitude : ℝ
  Altitude : ℝ
  GeoidSeparation : ℝ
  Satellites : ℤ
  PDOP : ℝ
  Groundspeed : ℝ
  Heading : ℝ

/-- The HomeLocation UAVO fields used by the module. -/
structure HomeLoc where
  hlSet : Bool
  Be : V3
  Latitude : ℝ
  Longitude : ℝ
  Altitude : ℝ

/-- The AttitudeActual UAVO: quaternion plus derived roll/pitch/yaw. -/
structure AttData where
  q : Quat
  rpy : V3

/-- Alarm severities of the SystemAlarms object. -/
inductive AlarmStatus where
  | ok | warning | error | critical
deriving DecidableEq, Repr

/-- Numeric severity of an alarm, for "at least warning" statements. -/
def AlarmStatus.sev : AlarmStatus → ℕ
  | .ok => 0
  | .warning => 1
  | .error => 2
  | .critical => 3

/-! ## Gyro bias accumulator (struct gyro_bias_estimation) -/

/-- The `struct gyro_bias_estimation` of attitude.c. -/
structure GyroBiasEstimation where
  accumulated_gyro : V3
  accumulated_gyro_samples : ℕ
  accumulating_gyro : Bool

/-- `accumulate_gyro_zero` of attitude.c: reset count and sums. -/
def accumulate_gyro_zero (g : GyroBiasEstimation) : GyroBiasEstimation :=
  { g with accumulated_gyro_samples := 0, accumulated_gyro := ⟨0, 0, 0⟩ }

/-- `accumulate_gyro_compute` of attitude.c.  Takes the accumulator state and
the current GyrosBias record; returns the new accumulator state and the
(possibly re-published) GyrosBias record. -/
def accumulate_gyro_compute (g : GyroBiasEstimation) (gyrosBias : V3) :
    GyroBiasEstimation × V3 :=
  if g.accumulating_gyro ∧ g.accumulated_gyro_samples > 100 then
    let n : ℝ := (g.accumulated_gyro_samples : ℝ)
    let bias : V3 := ⟨g.accumulated_gyro.x / n, g.accumulated_gyro.y / n,
      g.accumulated_gyro.z / n⟩
    ({ accumulate_gyro_zero g with accumulating_gyro := false }, bias)
  else
    (g, gyrosBias)

/-- `accumulate_gyro` of attitude.c.  `gyrosBias` is the currently published
GyrosBias record (read by `GyrosBiasGet`); `gyrosData` the raw gyro sample.
The `if (true)` mirrors the unconditional `// bias_correct_gyro` branch of the
source, whose else-arm (uncorrected sums) is dead. -/
def accumulate_gyro (g : GyroBiasEstimation) (gyrosBias gyrosData : V3) :
    GyroBiasEstimation :=
  if ¬ g.accumulating_gyro then g
  else
    let g := { g with accumulated_gyro_samples := g.accumulated_gyro_samples + 1 }
    if true then
      { g with accumulated_gyro :=
        ⟨g.accumulated_gyro.x + gyrosData.x + gyrosBias.x,
         g.accumulated_gyro.y + gyrosData.y + gyrosBias.y,
         g.accumulated_gyro.z + gyrosData.z + gyrosBias.z⟩ }
    else
      { g with accumulated_gyro :=
        ⟨g.accumulated_gyro.x + gyrosData.x,
         g.accumulated_gyro.y + gyrosData.y,
         g.accumulated_gyro.z + gyrosData.z⟩ }

/-! ## Coordinate module (getNED and the HomeLocation branch of settingsUpdatedCb) -/

/-- `getNED` of attitude.c.  `T` is the global scale-coefficient vector kept
up to date by `settingsUpdatedCb`. -/
def getNED (T : V3) (home : HomeLoc) (gps : GPSPos) : V3 :=
  let dL : V3 := ⟨(gps.Latitude - home.Latitude) / 10.0e6 * DEG2RAD,
    (gps.Longitude - home.Longitude) / 10.0e6 * DEG2RAD,
    gps.Altitude + gps.GeoidSeparation - home.Altitude⟩
  ⟨T.x * dL.x, T.y * dL.y, T.z * dL.z⟩

/-- The HomeLocation branch of `settingsUpdatedCb`: recompute the
deltaLLA-to-NED scale coefficients from the home location. -/
def computeT (home : HomeLoc) : V3 :=
  let lat := home.Latitude / 10.0e6 * DEG2RAD
  let alt := home.Altitude
  ⟨alt + 6.378137e6, Real.cos lat * (alt + 6.378137e6), -1⟩

/-! ## Complementary filter (updateAttitudeComplementary) -/

/-- The AttitudeSettings fields used by the complementary filter. -/
structure AttSettings where
  AccelKp : ℝ
  AccelKi : ℝ
  YawBiasRate : ℝ
  MagKp : ℝ
  ZeroDuringArming : Bool

/-- The internal `complimentary_filter_status` enum of attitude.c. -/
inductive CFStatus where
  | poweron | initializing | arming | normal
deriving DecidableEq, Repr

/-- The global `magKi = 0.000001f` of attitude.c. -/
def magKi : ℝ := 0.000001

/-- `apply_accel_filter` of attitude.c: first order low pass when enabled. -/
def apply_accel_filter (enabled : Bool) (alpha : ℝ) (raw filtered : V3) : V3 :=
  if enabled then
    ⟨filtered.x * alpha + raw.x * (1 - alpha),
     filtered.y * alpha + raw.y * (1 - alpha),
     filtered.z * alpha + raw.z * (1 - alpha)⟩
  else raw

/-- Per-cycle inputs of `updateAttitudeComplementary`: queue receive results,
sensor data read from the UAVOs, tick count, measured dT and the global
configuration state written by `settingsUpdatedCb`. -/
structure CFIn where
  first_run : Bool
  gyroTimeout : Bool
  accelTimeout : Bool
  readonly : Bool
  magPresent : Bool
  magFreshFirstRun : Bool
  magFresh : Bool
  gpsFresh : Bool
  gpsVelFresh : Bool
  accels : V3
  gyros : V3
  mag : V3
  magHasNaN : Bool
  flightArming : Bool
  tick : ℕ
  dT : ℝ
  storedSettings : AttSettings
  home : HomeLoc
  T : V3
  gps : GPSPos
  gpsVel : V3

/-- The mutable state touched by a complementary-filter cycle: the published
UAVO records, the function-local statics and the file-level globals. -/
structure CFState where
  attitude : AttData
  gyrosBias : V3
  nedPos : V3
  positionActual : V3
  velocityActual : V3
  alarm : AlarmStatus
  attitudeSettings : AttSettings
  accel_alpha : ℝ
  accel_filter_enabled : Bool
  accels_filtered : V3
  grot_filtered : V3
  arming_count : ℕ
  cfStatus : CFStatus
  gbe : GyroBiasEstimation
  mag_err : V3

/-- External math routines of the missing CoordinateConversions module whose
values none of the claims depend on; kept abstract as a parameter. -/
structure ExtMath where
  q2rpy : Quat → V3

/-- The staged-initialization state machine of `updateAttitudeComplementary`
(lines 354-410): POWERON / INITIALIZING / ARMING / NORMAL transitions together
with their settings, filter-enable, arming-count and gyro-accumulator
side effects. -/
def cf_status_machine (i : CFIn) (s : CFState) : CFState :=
  if s.cfStatus = .poweron then
    { s with cfStatus := if i.tick > 1000 then .initializing else .poweron }
  else if s.cfStatus = .initializing ∧ i.tick < 7000 ∧ i.tick > 1000 then
    { s with attitudeSettings := { s.attitudeSettings with
        AccelKp := 0.1 + 0.1 * (if i.tick < 4000 then 1 else 0),
        AccelKi := 0.1, YawBiasRate := 0.1, MagKp := 0.1 } }
  else if s.attitudeSettings.ZeroDuringArming ∧ i.flightArming then
    let kp : ℝ :=
      if s.arming_count < 20 then 1.0
      else if s.attitudeSettings.AccelKp > 0.1 then s.attitudeSettings.AccelKp - 0.01
      else s.attitudeSettings.AccelKp
    let s := { s with
      attitudeSettings := { s.attitudeSettings with
        AccelKp := kp, AccelKi := 0.1, YawBiasRate := 0.1, MagKp := 0.1 },
      arming_count := s.arming_count + 1,
      accel_filter_enabled := false }
    if s.cfStatus ≠ .arming then
      { s with gbe := { accumulate_gyro_zero s.gbe with accumulating_gyro := true },
               cfStatus := .arming }
    else s
  else if s.cfStatus = .arming ∨ s.cfStatus = .initializing then
    let s := { s with
      attitudeSettings := i.storedSettings,
      accel_filter_enabled := if s.accel_alpha > 0 then true else s.accel_filter_enabled }
    let s :=
      if s.cfStatus = .arming then
        let gb := accumulate_gyro_compute s.gbe s.gyrosBias
        { s with gbe := { gb.1 with accumulating_gyro := false },
                 gyrosBias := gb.2, arming_count := 0 }
      else s
    { s with cfStatus := .normal }
  else s

/-- The magnetometer error block of `updateAttitudeComplementary`
(lines 464-497).  Note the source tests `xQueueReceive(magQueue, ...) != pdTRUE`,
so the correction is computed when NO fresh sample arrived and the error is
zeroed when one did; when the stale data is invalid or no home is set the
global `mag_err` keeps its previous value. -/
def cf_mag_err (i : CFIn) (q : Quat) (prev : V3) : V3 :=
  if ¬ i.magFresh then
    if (¬ i.magHasNaN) ∧ i.home.hlSet then
      let brot := rotMult (quaternion2R q) i.home.Be
      let mag_len := Real.sqrt (normSqV3 i.mag)
      let magn : V3 := ⟨i.mag.x / mag_len, i.mag.y / mag_len, i.mag.z / mag_len⟩
      let bmag := Real.sqrt (normSqV3 brot)
      let brotn : V3 := ⟨brot.x / bmag, brot.y / bmag, brot.z / bmag⟩
      if bmag < 1 ∨ mag_len < 1 then ⟨0, 0, 0⟩ else crossProduct magn brotn
    else prev
  else ⟨0, 0, 0⟩

/-- The integration tail of `updateAttitudeComplementary` (lines 520-547):
take the time step, flip the sign if the scalar component went negative,
renormalize, and hard-reset to identity if the norm collapsed.  The source's
`qmag != qmag` NaN test is vacuous over ℝ and is dropped. -/
def cf_finalize (qs : Quat) : Quat :=
  let qf : Quat := if qs.q1 < 0 then ⟨-qs.q1, -qs.q2, -qs.q3, -qs.q4⟩ else qs
  let qmag := Real.sqrt (qNormSq qf)
  let qn : Quat := ⟨qf.q1 / qmag, qf.q2 / qmag, qf.q3 / qmag, qf.q4 / qmag⟩
  if |qmag| < 1.0e-3 then ⟨1, 0, 0, 0⟩ else qn

/-- One cycle of `updateAttitudeComplementary`, returning the C return code
and the updated state. -/
def cf_cycle (em : ExtMath) (i : CFIn) (s : CFState) : Int × CFState :=
  -- gyro/accel queue timeout failsafe (lines 305-315); in simulation
  -- (read-only attitude) the cycle continues with stale data
  if (i.gyroTimeout || i.accelTimeout) && !i.readonly then
    (-1, { s with alarm := .warning })
  else if i.first_run then
    -- first-run seeding (lines 319-349)
    if i.magPresent && !i.magFreshFirstRun then (-1, s)
    else
      let magData : V3 := if i.magPresent then i.mag else ⟨100, 0, 0⟩
      let roll := atan2f (-i.accels.y) (-i.accels.z) * 180 / Real.pi
      let pitch := atan2f i.accels.x (-i.accels.z) * 180 / Real.pi
      let yaw := atan2f (-magData.y) magData.x * 180 / Real.pi
      let q := RPY2Quaternion ⟨roll, pitch, yaw⟩
      (0, { s with attitude := ⟨q, ⟨roll, pitch, yaw⟩⟩,
                   cfStatus := .poweron, arming_count := 0 })
  else
    let s := cf_status_machine i s
    let gbe := accumulate_gyro s.gbe s.gyrosBias i.gyros
    let q := s.attitude.q
    let accels_f := apply_accel_filter s.accel_filter_enabled s.accel_alpha i.accels s.accels_filtered
    let grot : V3 := ⟨-(2 * (q.q2 * q.q4 - q.q1 * q.q3)),
      -(2 * (q.q3 * q.q4 + q.q1 * q.q2)),
      -(q.q1 * q.q1 - q.q2 * q.q2 - q.q3 * q.q3 + q.q4 * q.q4)⟩
    let grot_f := apply_accel_filter s.accel_filter_enabled s.accel_alpha grot s.grot_filtered
    -- the source's first CrossProduct(accelsData, grot) result is overwritten
    let accel_err0 := crossProduct accels_f grot_f
    let grot_mag := if s.accel_filter_enabled then Real.sqrt (normSqV3 grot_f) else 1.0
    let accel_mag := Real.sqrt (normSqV3 accels_f)
    let accel_err : V3 :=
      if grot_mag > 1.0e-3 ∧ accel_mag > 1.0e-3 then
        ⟨accel_err0.x / (accel_mag * grot_mag),
         accel_err0.y / (accel_mag * grot_mag),
         accel_err0.z / (accel_mag * grot_mag)⟩
      else ⟨0, 0, 0⟩
    let mag_err := cf_mag_err i q s.mag_err
    let bias : V3 := ⟨s.gyrosBias.x - accel_err.x * s.attitudeSettings.AccelKi,
      s.gyrosBias.y - accel_err.y * s.attitudeSettings.AccelKi,
      s.gyrosBias.z - mag_err.z * magKi⟩
    let gx := i.gyros.x + accel_err.x * s.attitudeSettings.AccelKp / i.dT
    let gy := i.gyros.y + accel_err.y * s.attitudeSettings.AccelKp / i.dT
    let gz := i.gyros.z + accel_err.z * s.attitudeSettings.AccelKp / i.dT
      + mag_err.z * s.attitudeSettings.MagKp / i.dT
    let qdot : Quat := ⟨(-q.q2 * gx - q.q3 * gy - q.q4 * gz) * i.dT * Real.pi / 180 / 2,
      (q.q1 * gx - q.q4 * gy + q.q3 * gz) * i.dT * Real.pi / 180 / 2,
      (q.q4 * gx + q.q1 * gy - q.q2 * gz) * i.dT * Real.pi / 180 / 2,
      (-q.q3 * gx + q.q2 * gy + q.q1 * gz) * i.dT * Real.pi / 180 / 2⟩
    let qfinal := cf_finalize ⟨q.q1 + qdot.q1, q.q2 + qdot.q2, q.q3 + qdot.q3, q.q4 + qdot.q4⟩
    -- GPS position / velocity passthrough (lines 557-591)
    let ned := getNED i.T i.home i.gps
    let doNed := i.gpsFresh && i.home.hlSet
    (0, { s with
      attitude := ⟨qfinal, em.q2rpy qfinal⟩,
      gyrosBias := bias,
      gbe := gbe,
      accels_filtered := accels_f,
      grot_filtered := grot_f,
      mag_err := mag_err,
      nedPos := if doNed then ned else s.nedPos,
      positionActual := if doNed then ned else s.positionActual,
      velocityActual := if i.gpsVelFresh then i.gpsVel else s.velocityActual,
      alarm := .ok })

/-! ## Navigation filter (updateAttitudeINSGPS) -/

/-- The `struct NavStruct` state of the missing insgps module that attitude.c
reads back: quaternion, NED position, NED velocity and gyro bias (rad/s). -/
structure NavData where
  q : Quat
  Pos : V3
  Vel : V3
  gyro_bias : V3

/-- The sensor-availability bitmask passed to `INSCorrection`, modelled as a
record of flags (the numeric bit constants live in the missing insgps.h). -/
structure SensorFlags where
  mag : Bool
  baro : Bool
  pos : Bool
  horiz : Bool
  vert : Bool
  horizPos : Bool
deriving DecidableEq, Repr

/-- The empty sensors mask. -/
def SensorFlags.none : SensorFlags := ⟨false, false, false, false, false, false⟩

/-- Whether any availability bit is set (the C `if (sensors)` test). -/
def SensorFlags.any (f : SensorFlags) : Bool :=
  f.mag || f.baro || f.pos || f.horiz || f.vert || f.horizPos

/-- The missing insgps module, kept abstract: the nav state after
`INSGPSInit`, the `INSStatePrediction` step (gyro rad/s, accels, dT) and the
`INSCorrection` step (mag data, NED target, velocity target, baro altitude,
availability mask).  `INSSetState` / `INSSetGyroBias` write the corresponding
NavStruct fields directly and are modelled concretely in the cycle; the
variance setters and covariance propagation have no observable effect on any
claim and are not modelled. -/
structure INSAlgo where
  navInit : NavData
  predict : NavData → V3 → V3 → ℝ → NavData
  correct : NavData → V3 → V3 → V3 → ℝ → SensorFlags → NavData

/-- Per-cycle inputs of `updateAttitudeINSGPS`. -/
structure INSIn where
  first_run : Bool
  outdoor : Bool
  navAvailable : Bool
  gyroTimeout : Bool
  accelTimeout : Bool
  readonly : Bool
  magFresh : Bool
  baroFresh : Bool
  gpsFresh : Bool
  gpsVelFresh : Bool
  gyros : V3
  accels : V3
  mag : V3
  magHasNaN : Bool
  baroAlt : ℝ
  gps : GPSPos
  gpsVel : V3
  home : HomeLoc
  T : V3
  biasCorrectGyro : Bool
  dT : ℝ

/-- The mutable state touched by a navigation-filter cycle: the NavStruct,
the function-local statics, the `init_stage` / `gyroBiasSettingsUpdated`
globals and the published UAVO records. -/
structure INSState where
  nav : NavData
  mag_updated : Bool
  baro_updated : Bool
  gps_updated : Bool
  gps_vel_updated : Bool
  baroOffset : ℝ
  inited : Bool
  init_stage : ℤ
  gyroBiasSettingsUpdated : Bool
  attitude : AttData
  gyrosBias : V3
  nedPos : V3
  positionActual : V3
  velocityActual : V3
  alarm : AlarmStatus

/-- Observable record of which insgps entry points a cycle invoked:
whether `INSStatePrediction` / `INSCorrection` ran, the mask passed to
`INSCorrection`, and the argument of an `INSSetGyroBias` call if any. -/
structure INSTrace where
  predicted : Bool
  corrected : Bool
  sensors : SensorFlags
  setBias : Option V3

/-- The trace of a cycle that called nothing. -/
def INSTrace.none : INSTrace := ⟨false, false, SensorFlags.none, Option.none⟩

/-- The `BARO_OFFSET_LOWPASS_ALPHA` constant of attitude.c. -/
def BARO_OFFSET_LOWPASS_ALPHA : ℝ := 0.9997

/-- The initialization block of `updateAttitudeINSGPS` (lines 767-878),
entered when not yet initialized and all required sensors have produced a
sample.  Returns the updated state and trace. -/
def ins_init_block (alg : INSAlgo) (em : ExtMath) (i : INSIn) (s : INSState) :
    INSState × INSTrace :=
  let zeros : V3 := ⟨0, 0, 0⟩
  let step :=
    if s.init_stage = 0 ∧ ¬ i.outdoor then
      -- indoor stage 0: reset filter, seed attitude, origin position
      let baroOffset := -i.baroAlt
      let pos : V3 := ⟨0, 0, -(i.baroAlt + baroOffset)⟩
      let nav := alg.navInit
      let gyro_bias : V3 := ⟨s.gyrosBias.x * Real.pi / 180, s.gyrosBias.y * Real.pi / 180,
        s.gyrosBias.z * Real.pi / 180⟩
      let nav := { nav with gyro_bias := gyro_bias }
      let roll := atan2f (-i.accels.y) (-i.accels.z) * 180 / Real.pi
      let pitch := atan2f i.accels.x (-i.accels.z) * 180 / Real.pi
      let yaw := atan2f (-i.mag.y) i.mag.x * 180 / Real.pi
      let q := RPY2Quaternion ⟨roll, pitch, yaw⟩
      -- INSSetState(pos, zeros, q, zeros, zeros)
      let nav := { nav with Pos := pos, Vel := zeros, q := q, gyro_bias := zeros }
      ({ s with nav := nav, baroOffset := baroOffset,
                attitude := ⟨q, ⟨roll, pitch, yaw⟩⟩ },
       { INSTrace.none with setBias := some gyro_bias })
    else if s.init_stage = 0 ∧ i.outdoor then
      -- outdoor stage 0: reset filter, seed attitude, home-referenced position
      let nav := alg.navInit
      let gyro_bias : V3 := ⟨s.gyrosBias.x * Real.pi / 180, s.gyrosBias.y * Real.pi / 180,
        s.gyrosBias.z * Real.pi / 180⟩
      let nav := { nav with gyro_bias := gyro_bias }
      let ned := getNED i.T i.home i.gps
      let baroOffset := -ned.z - i.baroAlt
      let roll := atan2f (-i.accels.y) (-i.accels.z) * 180 / Real.pi
      let pitch := atan2f i.accels.x (-i.accels.z) * 180 / Real.pi
      let yaw := atan2f (-i.mag.y) i.mag.x * 180 / Real.pi
      let q := RPY2Quaternion ⟨roll, pitch, yaw⟩
      let nav := { nav with Pos := ned, Vel := zeros, q := q, gyro_bias := zeros }
      ({ s with nav := nav, baroOffset := baroOffset,
                attitude := ⟨q, ⟨roll, pitch, yaw⟩⟩ },
       { INSTrace.none with setBias := some gyro_bias })
    else if s.init_stage > 0 then
      -- stages > 0: run prediction a bit before any corrections
      let gyros : V3 := ⟨(i.gyros.x + s.gyrosBias.x) * Real.pi / 180,
        (i.gyros.y + s.gyrosBias.y) * Real.pi / 180,
        (i.gyros.z + s.gyrosBias.z) * Real.pi / 180⟩
      let nav := alg.predict s.nav gyros i.accels i.dT
      ({ s with nav := nav, attitude := ⟨nav.q, em.q2rpy nav.q⟩ },
       { INSTrace.none with predicted := true })
    else (s, INSTrace.none)
  let s := step.1
  let s := { s with init_stage := s.init_stage + 1 }
  let s := if s.init_stage > (10 : ℤ) then { s with inited := true } else s
  (s, step.2)

/-- The post-initialization body of `updateAttitudeINSGPS` (lines 883-1009):
clamp dT, hot-reload a pushed gyro bias, predict, publish attitude, build the
correction targets and availability mask, correct, publish position/velocity
and (conditionally) the gyro bias. -/
def ins_main (alg : INSAlgo) (em : ExtMath) (i : INSIn)
    (s : INSState) (mag_u baro_u gps_u gps_vel_u : Bool) : INSState × INSTrace :=
  let dT : ℝ := if i.dT > 0.01 then 0.01 else if i.dT ≤ 0.001 then 0.001 else i.dT
  -- gyro bias hot-reload (lines 894-898)
  let setBiasArg : Option V3 :=
    if s.gyroBiasSettingsUpdated then
      some ⟨s.gyrosBias.x * Real.pi / 180, s.gyrosBias.y * Real.pi / 180,
        s.gyrosBias.z * Real.pi / 180⟩
    else Option.none
  let nav :=
    if s.gyroBiasSettingsUpdated then
      { s.nav with gyro_bias := ⟨s.gyrosBias.x * Real.pi / 180,
          s.gyrosBias.y * Real.pi / 180, s.gyrosBias.z * Real.pi / 180⟩ }
    else s.nav
  let biasUpdated := false  -- gyroBiasSettingsUpdated = false after consumption
  -- bias-corrected gyros in rad/s (lines 900-907)
  let gyros : V3 :=
    if i.biasCorrectGyro then
      ⟨i.gyros.x * Real.pi / 180 + s.gyrosBias.x * Real.pi / 180,
       i.gyros.y * Real.pi / 180 + s.gyrosBias.y * Real.pi / 180,
       i.gyros.z * Real.pi / 180 + s.gyrosBias.z * Real.pi / 180⟩
    else ⟨i.gyros.x * Real.pi / 180, i.gyros.y * Real.pi / 180, i.gyros.z * Real.pi / 180⟩
  let nav := alg.predict nav gyros i.accels dT
  let attitude : AttData := ⟨nav.q, em.q2rpy nav.q⟩
  -- availability mask and correction targets (lines 925-975)
  let sensors : SensorFlags := { SensorFlags.none with mag := mag_u, baro := baro_u }
  let gpsBranch := gps_u && i.outdoor
  let ned0 : V3 := ⟨0, 0, 0⟩
  let vel0 : V3 := ⟨0, 0, 0⟩
  let ned :=
    if gpsBranch then getNED i.T i.home i.gps
    else if ¬ i.outdoor then ⟨0, 0, -(i.baroAlt + 0)⟩
    else ned0
  let baroOffset :=
    if gpsBranch then
      BARO_OFFSET_LOWPASS_ALPHA * s.baroOffset +
        (1 - BARO_OFFSET_LOWPASS_ALPHA) * (-(getNED i.T i.home i.gps).z - i.baroAlt)
    else if ¬ i.outdoor then 0
    else s.baroOffset
  let sensors :=
    if gpsBranch then { sensors with pos := true }
    else if ¬ i.outdoor then
      { sensors with horiz := true, horizPos := true, pos := true, vert := true }
    else sensors
  let nedPos := if gpsBranch then getNED i.T i.home i.gps else s.nedPos
  let velGps := gps_vel_u && i.outdoor
  let vel := if velGps then i.gpsVel else if ¬ i.outdoor then vel0 else vel0
  let sensors := if velGps then { sensors with horiz := true, vert := true } else sensors
  let corrected := sensors.any
  let nav :=
    if corrected then alg.correct nav i.mag ned vel (i.baroAlt + baroOffset) sensors
    else nav
  -- publish position, velocity and (conditionally) the gyro bias
  let gyrosBias :=
    if i.biasCorrectGyro && !biasUpdated then
      ⟨nav.gyro_bias.x * 180 / Real.pi, nav.gyro_bias.y * 180 / Real.pi,
       nav.gyro_bias.z * 180 / Real.pi⟩
    else s.gyrosBias
  ({ s with nav := nav, baroOffset := baroOffset,
            gyroBiasSettingsUpdated := biasUpdated,
            attitude := attitude,
            positionActual := nav.Pos, velocityActual := nav.Vel,
            nedPos := nedPos, gyrosBias := gyrosBias,
            mag_updated := mag_u, baro_updated := baro_u,
            gps_updated := gps_u, gps_vel_updated := gps_vel_u },
   ⟨true, corrected, if corrected then sensors else SensorFlags.none, setBiasArg⟩)

/-- One cycle of `updateAttitudeINSGPS`, returning the C return code, the
updated state and the trace of insgps calls. -/
def ins_cycle (alg : INSAlgo) (em : ExtMath) (i : INSIn) (s : INSState) :
    Int × INSState × INSTrace :=
  if ¬ i.navAvailable then (-1, s, INSTrace.none)
  else if (i.gyroTimeout || i.accelTimeout) && !i.readonly then
    (-1, { s with alarm := .warning }, INSTrace.none)
  else
    -- once initialized the per-sensor flags are reset each cycle (lines 716-721)
    let s := if s.inited then
        { s with mag_updated := false, baro_updated := false,
                 gps_updated := false, gps_vel_updated := false }
      else s
    if i.first_run then
      (0, { s with inited := false, init_stage := 0, mag_updated := false,
                   baro_updated := false, gps_updated := false,
                   gps_vel_updated := false }, INSTrace.none)
    else
      -- accumulate freshness flags (lines 737-740) and mask them (lines 752-758)
      let mag_u := (s.mag_updated || i.magFresh) && !i.magHasNaN
        && (decide (i.home.Be.x ≠ 0) || decide (i.home.Be.y ≠ 0) || decide (i.home.Be.z ≠ 0))
      let baro_u := s.baro_updated || i.baroFresh
      let gps_u := (s.gps_updated || (i.gpsFresh && i.outdoor))
        && (decide (i.gps.Satellites ≥ 7) && decide (i.gps.PDOP ≤ 4.0) && i.home.hlSet)
      let gps_vel_u := s.gps_vel_updated || (i.gpsVelFresh && i.outdoor)
      -- alarm policy (lines 760-765)
      let alarm : AlarmStatus :=
        if ¬ s.inited then .error
        else if i.outdoor ∧ i.gps.Satellites < 7 then .error
        else .ok
      let s := { s with alarm := alarm }
      if ¬ s.inited ∧ mag_u ∧ baro_u ∧ (gps_u ∨ ¬ i.outdoor) then
        let r := ins_init_block alg em i
          { s with mag_updated := mag_u, baro_updated := baro_u,
                   gps_updated := gps_u, gps_vel_updated := gps_vel_u }
        (0, r.1, r.2)
      else if ¬ s.inited then
        (0, { s with mag_updated := mag_u, baro_updated := baro_u,
                     gps_updated := gps_u, gps_vel_updated := gps_vel_u }, INSTrace.none)
      else
        let r := ins_main alg em i s mag_u baro_u gps_u gps_vel_u
        (0, r.1, r.2)

/-- Iterate the navigation-filter cycle over a list of per-cycle inputs. -/
def ins_run (alg : INSAlgo) (em : ExtMath) : List INSIn → INSState → INSState
  | [], s => s
  | i :: rest, s => ins_run alg em rest (ins_cycle alg em i s).2.1

/-! ## Quaternion invariant (claim C1) -/

/-- The published-attitude invariant: unit norm and non-negative scalar part. -/
def unitQ (q : Quat) : Prop := qNormSq q = 1 ∧ 0 ≤ q.q1

/-- The identity quaternion satisfies the invariant. -/
theorem unitQ_id : unitQ ⟨1, 0, 0, 0⟩ := by
  constructor
  · simp [qNormSq]
  · norm_num

/-- RPY2Quaternion always produces a quaternion satisfying the invariant. -/
theorem RPY2Quaternion_unit (rpy : V3) : unitQ (RPY2Quaternion rpy) := by
  have h1 := Real.sin_sq_add_cos_sq (DEG2RAD * rpy.x / 2)
  have h2 := Real.sin_sq_add_cos_sq (DEG2RAD * rpy.y / 2)
  have h3 := Real.sin_sq_add_cos_sq (DEG2RAD * rpy.z / 2)
  unfold unitQ RPY2Quaternion
  dsimp only
  split
  · next h =>
    constructor
    · simp only [qNormSq]
      linear_combination (Real.sin (DEG2RAD * rpy.y / 2) ^ 2 + Real.cos (DEG2RAD * rpy.y / 2) ^ 2) *
          (Real.sin (DEG2RAD * rpy.z / 2) ^ 2 + Real.cos (DEG2RAD * rpy.z / 2) ^ 2) * h1 +
        (Real.sin (DEG2RAD * rpy.z / 2) ^ 2 + Real.cos (DEG2RAD * rpy.z / 2) ^ 2) * h2 + h3
    · dsimp only
      linarith
  · next h =>
    constructor
    · simp only [qNormSq]
      linear_combination (Real.sin (DEG2RAD * rpy.y / 2) ^ 2 + Real.cos (DEG2RAD * rpy.y / 2) ^ 2) *
          (Real.sin (DEG2RAD * rpy.z / 2) ^ 2 + Real.cos (DEG2RAD * rpy.z / 2) ^ 2) * h1 +
        (Real.sin (DEG2RAD * rpy.z / 2) ^ 2 + Real.cos (DEG2RAD * rpy.z / 2) ^ 2) * h2 + h3
    · dsimp only
      linarith [not_lt.mp h]

/-- The flip-renormalize-reset tail of the complementary filter always yields
a quaternion satisfying the invariant, whatever the integrated step was. -/
theorem cf_finalize_unit (qs : Quat) : unitQ (cf_finalize qs) := by
  unfold cf_finalize
  set qf : Quat := if qs.q1 < 0 then ⟨-qs.q1, -qs.q2, -qs.q3, -qs.q4⟩ else qs with hqf
  have hq1 : 0 ≤ qf.q1 := by
    rw [hqf]
    split
    · next h => simp only; linarith
    · next h => simpa using not_lt.mp h
  have hS : 0 ≤ qNormSq qf := by
    unfold qNormSq
    nlinarith [sq_nonneg qf.q1, sq_nonneg qf.q2, sq_nonneg qf.q3, sq_nonneg qf.q4]
  by_cases hc : |Real.sqrt (qNormSq qf)| < 1.0e-3
  · rw [if_pos hc]
    exact unitQ_id
  · rw [if_neg hc]
    have habs : |Real.sqrt (qNormSq qf)| = Real.sqrt (qNormSq qf) :=
      abs_of_nonneg (Real.sqrt_nonneg _)
    rw [habs] at hc
    have hsq : (1.0e-3 : ℝ) ≤ Real.sqrt (qNormSq qf) := not_lt.mp hc
    have hpos : 0 < Real.sqrt (qNormSq qf) := lt_of_lt_of_le (by norm_num) hsq
    have hSpos : 0 < qNormSq qf := Real.sqrt_pos.mp hpos
    have hmm : Real.sqrt (qNormSq qf) * Real.sqrt (qNormSq qf) = qNormSq qf :=
      Real.mul_self_sqrt hS
    have hm : Real.sqrt (qNormSq qf) ≠ 0 := ne_of_gt hpos
    constructor
    · simp only [qNormSq] at hmm hm ⊢
      field_simp
      linear_combination -hmm
    · exact div_nonneg hq1 (le_of_lt hpos)

/-- Modelled from the spec: the spec asserts the quaternion-norm invariant for
the navigation filter as well, whose internal predict/correct steps live in
the missing insgps module; we record that property as a hypothesis on the
abstract algorithm. -/
def INSAlgoPreservesUnit (alg : INSAlgo) : Prop :=
  unitQ alg.navInit.q ∧
  (∀ nav g a d, unitQ nav.q → unitQ (alg.predict nav g a d).q) ∧
  (∀ nav m p v b f, unitQ nav.q → unitQ (alg.correct nav m p v b f).q)

/-- The initialization block preserves the attitude/nav quaternion invariant. -/
theorem ins_init_block_unit (alg : INSAlgo) (em : ExtMath) (i : INSIn) (s : INSState)
    (hA : INSAlgoPreservesUnit alg) (hN : unitQ s.nav.q) (hAtt : unitQ s.attitude.q) :
    unitQ (ins_init_block alg em i s).1.attitude.q ∧
    unitQ (ins_init_block alg em i s).1.nav.q := by
  unfold ins_init_block
  dsimp only
  split_ifs <;> (try dsimp only) <;>
    exact ⟨by first
      | exact RPY2Quaternion_unit _
      | exact hA.2.1 _ _ _ _ hN
      | exact hAtt,
    by first
      | exact RPY2Quaternion_unit _
      | exact hA.2.1 _ _ _ _ hN
      | exact hN⟩

set_option maxHeartbeats 2000000 in
/-- The main predict/correct body preserves the quaternion invariant. -/
theorem ins_main_unit (alg : INSAlgo) (em : ExtMath) (i : INSIn) (s : INSState)
    (mu bu gu gvu : Bool)
    (hA : INSAlgoPreservesUnit alg) (hN : unitQ s.nav.q) :
    unitQ (ins_main alg em i s mu bu gu gvu).1.attitude.q ∧
    unitQ (ins_main alg em i s mu bu gu gvu).1.nav.q := by
  unfold ins_main
  dsimp only
  split_ifs <;> (try dsimp only) <;>
    refine ⟨?_, ?_⟩ <;>
    first
      | exact hA.2.1 _ _ _ _ hN
      | exact hA.2.2 _ _ _ _ _ _ (hA.2.1 _ _ _ _ hN)

set_option maxHeartbeats 2000000 in
/-- A successful complementary-filter cycle publishes a quaternion satisfying
the invariant, whichever path (first-run seeding or normal update) it took. -/
theorem cf_cycle_ret0_unit (em : ExtMath) (i : CFIn) (s : CFState)
    (h0 : (cf_cycle em i s).1 = 0) : unitQ (cf_cycle em i s).2.attitude.q := by
  unfold cf_cycle at h0 ⊢
  dsimp only at h0 ⊢
  split_ifs at h0 ⊢ <;> (try dsimp only) <;>
    first
      | exact RPY2Quaternion_unit _
      | exact cf_finalize_unit _
      | simp at h0

set_option maxHeartbeats 2000000 in
/-- A navigation-filter cycle preserves the invariant on both the published
attitude and the internal nav state. -/
theorem ins_cycle_unit (alg : INSAlgo) (em : ExtMath) (i : INSIn) (s : INSState)
    (hA : INSAlgoPreservesUnit alg) (hAtt : unitQ s.attitude.q) (hN : unitQ s.nav.q) :
    unitQ (ins_cycle alg em i s).2.1.attitude.q ∧
    unitQ (ins_cycle alg em i s).2.1.nav.q := by
  unfold ins_cycle
  dsimp only
  split_ifs <;> (try dsimp only) <;>
    first
      | exact ⟨hAtt, hN⟩
      | exact ins_init_block_unit alg em i _ hA hN hAtt
      | exact ins_main_unit alg em i _ _ _ _ _ hA hN

/-- C1: after every successful cycle of either fusion algorithm the published
attitude quaternion has unit norm (exactly, in the real-number model of the
floats) and a non-negative scalar component q1; for the navigation filter the
statement is relative to the published/internal quaternion satisfying the
invariant before the cycle and to the spec-modelled assumption that the
missing insgps predict/correct steps preserve it. -/
theorem claim_C1 :
    (∀ (em : ExtMath) (i : CFIn) (s : CFState),
      (cf_cycle em i s).1 = 0 → unitQ (cf_cycle em i s).2.attitude.q) ∧
    (∀ (alg : INSAlgo) (em : ExtMath) (i : INSIn) (s : INSState),
      INSAlgoPreservesUnit alg → unitQ s.attitude.q → unitQ s.nav.q →
      unitQ (ins_cycle alg em i s).2.1.attitude.q ∧
      unitQ (ins_cycle alg em i s).2.1.nav.q) :=
  ⟨cf_cycle_ret0_unit, fun alg em i s hA hAtt hN => ins_cycle_unit alg em i s hA hAtt hN⟩

/-! ## Concrete instances for witnesses and counterexamples -/

/-- The identity quaternion. -/
def idQuat : Quat := ⟨1, 0, 0, 0⟩

/-- Trivial instance of the abstract external-math parameter. -/
def testEm : ExtMath := ⟨fun _ => ⟨0, 0, 0⟩⟩

/-- A trivial insgps instance whose steps keep the nav state constant. -/
def testAlg : INSAlgo :=
  ⟨⟨idQuat, ⟨0, 0, 0⟩, ⟨0, 0, 0⟩, ⟨0, 0, 0⟩⟩, fun n _ _ _ => n, fun n _ _ _ _ _ => n⟩

/-- The trivial insgps instance preserves the invariant. -/
theorem testAlg_preserves : INSAlgoPreservesUnit testAlg :=
  ⟨unitQ_id, fun _ _ _ _ h => h, fun _ _ _ _ _ _ h => h⟩

/-- Nominal attitude settings for concrete runs. -/
def wSettings : AttSettings := ⟨0.05, 0.0001, 0.000001, 0.01, false⟩

/-- An unset home location. -/
def wHome : HomeLoc := ⟨false, ⟨0, 0, 0⟩, 0, 0, 0⟩

/-- An all-zero GPS fix. -/
def wGPS : GPSPos := ⟨0, 0, 0, 0, 0, 0, 0, 0⟩

/-- A first-run complementary-filter input with no magnetometer registered. -/
def wCFIn : CFIn :=
  { first_run := true, gyroTimeout := false, accelTimeout := false, readonly := false,
    magPresent := false, magFreshFirstRun := false, magFresh := false,
    gpsFresh := false, gpsVelFresh := false,
    accels := ⟨0, 0, -9.81⟩, gyros := ⟨0, 0, 0⟩, mag := ⟨100, 0, 0⟩,
    magHasNaN := false, flightArming := false, tick := 0, dT := 0.0025,
    storedSettings := wSettings, home := wHome, T := ⟨0, 0, 0⟩, gps := wGPS,
    gpsVel := ⟨0, 0, 0⟩ }

/-- A nominal complementary-filter state. -/
def wCFState : CFState :=
  { attitude := ⟨idQuat, ⟨0, 0, 0⟩⟩, gyrosBias := ⟨0, 0, 0⟩, nedPos := ⟨0, 0, 0⟩,
    positionActual := ⟨0, 0, 0⟩, velocityActual := ⟨0, 0, 0⟩, alarm := .ok,
    attitudeSettings := wSettings, accel_alpha := 0, accel_filter_enabled := false,
    accels_filtered := ⟨0, 0, 0⟩, grot_filtered := ⟨0, 0, 0⟩, arming_count := 0,
    cfStatus := .poweron, gbe := ⟨⟨0, 0, 0⟩, 0, false⟩, mag_err := ⟨0, 0, 0⟩ }

/-- A first-run navigation-filter input (indoor mode). -/
def wINSIn : INSIn :=
  { first_run := true, outdoor := false, navAvailable := true,
    gyroTimeout := false, accelTimeout := false, readonly := false,
    magFresh := false, baroFresh := false, gpsFresh := false, gpsVelFresh := false,
    gyros := ⟨0, 0, 0⟩, accels := ⟨0, 0, -9.81⟩, mag := ⟨1, 0, 0⟩,
    magHasNaN := false, baroAlt := 0, gps := wGPS, gpsVel := ⟨0, 0, 0⟩,
    home := wHome, T := ⟨0, 0, 0⟩, biasCorrectGyro := false, dT := 0.005 }

/-- A nominal navigation-filter state. -/
def wINSState : INSState :=
  { nav := ⟨idQuat, ⟨0, 0, 0⟩, ⟨0, 0, 0⟩, ⟨0, 0, 0⟩⟩,
    mag_updated := false, baro_updated := false, gps_updated := false,
    gps_vel_updated := false, baroOffset := 0, inited := false, init_stage := 0,
    gyroBiasSettingsUpdated := false, attitude := ⟨idQuat, ⟨0, 0, 0⟩⟩,
    gyrosBias := ⟨0, 0, 0⟩, nedPos := ⟨0, 0, 0⟩, positionActual := ⟨0, 0, 0⟩,
    velocityActual := ⟨0, 0, 0⟩, alarm := .ok }

/-- Witness for C1: both conjuncts applied at concrete inputs. -/
theorem claim_C1_witness :
    (cf_cycle testEm wCFIn wCFState).1 = 0 ∧
    unitQ (cf_cycle testEm wCFIn wCFState).2.attitude.q ∧
    unitQ (ins_cycle testAlg testEm wINSIn wINSState).2.1.attitude.q := by
  have h0 : (cf_cycle testEm wCFIn wCFState).1 = 0 := by
    simp [cf_cycle, wCFIn]
  refine ⟨h0, claim_C1.1 testEm wCFIn wCFState h0,
    (claim_C1.2 testAlg testEm wINSIn wINSState testAlg_preserves ?_ ?_).1⟩
  · exact unitQ_id
  · exact unitQ_id

/-! ## Claim C3: gyro timeout failsafe -/

/-- C3: in every complementary-filter cycle in which the gyro queue receive
times out and the published attitude is not read-only (not simulation), the
cycle returns -1, the attitude alarm is set to at least warning severity, and
the published attitude record is unchanged. -/
theorem claim_C3 (em : ExtMath) (i : CFIn) (s : CFState)
    (hg : i.gyroTimeout = true) (hro : i.readonly = false) :
    (cf_cycle em i s).1 = -1 ∧
    AlarmStatus.warning.sev ≤ (cf_cycle em i s).2.alarm.sev ∧
    (cf_cycle em i s).2.attitude = s.attitude := by
  simp [cf_cycle, hg, hro, AlarmStatus.sev]

/-- A non-first-run complementary-filter input whose gyro receive timed out. -/
def c3In : CFIn := { wCFIn with first_run := false, gyroTimeout := true }

/-- Witness for C3 at a concrete input. -/
theorem claim_C3_witness :
    c3In.gyroTimeout = true ∧ c3In.readonly = false ∧
    (cf_cycle testEm c3In wCFState).1 = -1 ∧
    AlarmStatus.warning.sev ≤ (cf_cycle testEm c3In wCFState).2.alarm.sev ∧
    (cf_cycle testEm c3In wCFState).2.attitude = wCFState.attitude :=
  ⟨rfl, rfl, claim_C3 testEm c3In wCFState rfl rfl⟩

/-! ## Claim C4: gyro bias accumulator compute -/

/-- C4: `accumulate_gyro_compute` never publishes a bias while at most 100
samples are accumulated; with the accumulating flag set, exactly 101 samples
accumulated and per-axis sums 101·v, it publishes bias v, zeroes the count and
sums, and clears the flag. -/
theorem claim_C4 :
    (∀ (g : GyroBiasEstimation) (b : V3),
      g.accumulated_gyro_samples ≤ 100 → accumulate_gyro_compute g b = (g, b)) ∧
    (∀ (g : GyroBiasEstimation) (b v : V3),
      g.accumulating_gyro = true → g.accumulated_gyro_samples = 101 →
      g.accumulated_gyro = ⟨101 * v.x, 101 * v.y, 101 * v.z⟩ →
      accumulate_gyro_compute g b = (⟨⟨0, 0, 0⟩, 0, false⟩, v)) := by
  constructor
  · intro g b hle
    unfold accumulate_gyro_compute
    rw [if_neg]
    intro ⟨_, hgt⟩
    omega
  · intro g b v hacc hn hsum
    unfold accumulate_gyro_compute
    rw [if_pos ⟨hacc, by omega⟩]
    dsimp only
    rw [hsum, hn]
    unfold accumulate_gyro_zero
    simp only [Prod.mk.injEq, GyroBiasEstimation.mk.injEq, V3.mk.injEq]
    norm_num

/-- A concrete accumulator with 101 samples averaging (2, -3, 0). -/
def c4g : GyroBiasEstimation := ⟨⟨202, -303, 0⟩, 101, true⟩

/-- Witness for C4 at concrete inputs. -/
theorem claim_C4_witness :
    (⟨⟨5, 5, 5⟩, 7, true⟩ : GyroBiasEstimation).accumulated_gyro_samples ≤ 100 ∧
    accumulate_gyro_compute ⟨⟨5, 5, 5⟩, 7, true⟩ ⟨1, 2, 3⟩ =
      (⟨⟨5, 5, 5⟩, 7, true⟩, ⟨1, 2, 3⟩) ∧
    accumulate_gyro_compute c4g ⟨9, 9, 9⟩ = (⟨⟨0, 0, 0⟩, 0, false⟩, ⟨2, -3, 0⟩) :=
  ⟨by norm_num,
   claim_C4.1 ⟨⟨5, 5, 5⟩, 7, true⟩ ⟨1, 2, 3⟩ (by norm_num),
   claim_C4.2 c4g ⟨9, 9, 9⟩ ⟨2, -3, 0⟩ rfl rfl
     (by simp only [c4g, V3.mk.injEq]; norm_num)⟩

/-! ## Claim C10: accumulated samples include the published bias -/

/-- Iterating `accumulate_gyro` n times from a zeroed accumulating state with
constant raw sample v and constant published bias record b sums v+b per axis
(the uncorrected-sum else-branch of the source is dead). -/
theorem accumulate_gyro_iterate (v b : V3) (n : ℕ) :
    (fun g => accumulate_gyro g b v)^[n] ⟨⟨0, 0, 0⟩, 0, true⟩ =
      ⟨⟨n * (v.x + b.x), n * (v.y + b.y), n * (v.z + b.z)⟩, n, true⟩ := by
  induction n with
  | zero => simp
  | succ k ih =>
    rw [Function.iterate_succ_apply', ih]
    unfold accumulate_gyro
    rw [if_neg (by simp)]
    dsimp only
    rw [if_pos rfl]
    congr 1
    apply V3.ext <;> push_cast <;> ring

/-- C10: while the accumulating flag is set every sample is accumulated as the
raw sample plus the currently published gyro bias, so 101 constant raw samples
v with published bias b yield a computed mean of v+b per axis — not v when
b is nonzero. -/
theorem claim_C10 :
    (∀ (g : GyroBiasEstimation) (b v : V3), g.accumulating_gyro = true →
      (accumulate_gyro g b v).accumulated_gyro =
        ⟨g.accumulated_gyro.x + v.x + b.x, g.accumulated_gyro.y + v.y + b.y,
         g.accumulated_gyro.z + v.z + b.z⟩) ∧
    (∀ (v b r : V3),
      (accumulate_gyro_compute ((fun g => accumulate_gyro g b v)^[101]
          ⟨⟨0, 0, 0⟩, 0, true⟩) r).2 = ⟨v.x + b.x, v.y + b.y, v.z + b.z⟩) ∧
    (∀ (v b r : V3), b.x ≠ 0 →
      (accumulate_gyro_compute ((fun g => accumulate_gyro g b v)^[101]
          ⟨⟨0, 0, 0⟩, 0, true⟩) r).2.x ≠ v.x) := by
  have key : ∀ (v b r : V3),
      (accumulate_gyro_compute ((fun g => accumulate_gyro g b v)^[101]
          ⟨⟨0, 0, 0⟩, 0, true⟩) r).2 = ⟨v.x + b.x, v.y + b.y, v.z + b.z⟩ := by
    intro v b r
    rw [accumulate_gyro_iterate]
    unfold accumulate_gyro_compute
    rw [if_pos ⟨rfl, by dsimp only; omega⟩]
    dsimp only
    simp only [V3.mk.injEq]
    refine ⟨?_, ?_, ?_⟩ <;> push_cast <;> ring_nf
  refine ⟨?_, key, ?_⟩
  · intro g b v hacc
    unfold accumulate_gyro
    rw [if_neg (by simp [hacc])]
    dsimp only
    rw [if_pos rfl]
  · intro v b r hbx
    rw [key v b r]
    dsimp only
    intro h
    apply hbx
    linarith

/-- Witness for C10 at concrete inputs. -/
theorem claim_C10_witness :
    (accumulate_gyro (⟨⟨0, 0, 0⟩, 0, true⟩ : GyroBiasEstimation) ⟨1, 0, 0⟩
        ⟨2, 5, 7⟩).accumulated_gyro = ⟨0 + 2 + 1, 0 + 5 + 0, 0 + 7 + 0⟩ ∧
    (accumulate_gyro_compute ((fun g => accumulate_gyro g ⟨1, 0, 0⟩ ⟨2, 5, 7⟩)^[101]
        ⟨⟨0, 0, 0⟩, 0, true⟩) ⟨0, 0, 0⟩).2 = ⟨2 + 1, 5 + 0, 7 + 0⟩ ∧
    (accumulate_gyro_compute ((fun g => accumulate_gyro g ⟨1, 0, 0⟩ ⟨2, 5, 7⟩)^[101]
        ⟨⟨0, 0, 0⟩, 0, true⟩) ⟨0, 0, 0⟩).2.x ≠ (2 : ℝ) :=
  ⟨claim_C10.1 ⟨⟨0, 0, 0⟩, 0, true⟩ ⟨1, 0, 0⟩ ⟨2, 5, 7⟩ rfl,
   claim_C10.2.1 ⟨2, 5, 7⟩ ⟨1, 0, 0⟩ ⟨0, 0, 0⟩,
   claim_C10.2.2 ⟨2, 5, 7⟩ ⟨1, 0, 0⟩ ⟨0, 0, 0⟩ (by norm_num)⟩

/-! ## Claim C8: coordinate module -/

/-- C8 (amended): the NED conversion scales the latitude delta by
(home altitude + Earth radius), the longitude delta by cos(home latitude)
times the same factor, and negates the altitude delta including the geoid
separation; a fix whose latitude/longitude match home and whose altitude plus
geoid separation equals the home altitude maps to NED = (0,0,0).  (A fix with
lat/lon/alt equal to home but nonzero geoid separation does NOT map to zero —
see the counterexample.) -/
theorem claim_C8 (home : HomeLoc) (gps : GPSPos) :
    getNED (computeT home) home gps =
      ⟨(home.Altitude + 6.378137e6) * ((gps.Latitude - home.Latitude) / 10.0e6 * DEG2RAD),
       Real.cos (home.Latitude / 10.0e6 * DEG2RAD) * (home.Altitude + 6.378137e6) *
         ((gps.Longitude - home.Longitude) / 10.0e6 * DEG2RAD),
       -(gps.Altitude + gps.GeoidSeparation - home.Altitude)⟩ ∧
    (gps.Latitude = home.Latitude → gps.Longitude = home.Longitude →
     gps.Altitude + gps.GeoidSeparation = home.Altitude →
     getNED (computeT home) home gps = ⟨0, 0, 0⟩) := by
  constructor
  · unfold getNED computeT
    dsimp only
    simp only [V3.mk.injEq]
    refine ⟨by ring_nf, by ring_nf, by ring_nf⟩
  · intro hlat hlon halt
    unfold getNED computeT
    dsimp only
    simp only [V3.mk.injEq, hlat, hlon, halt]
    norm_num

/-- The home location of the C8 counterexample. -/
def c8home : HomeLoc := ⟨true, ⟨0, 0, 0⟩, 0, 0, 0⟩

/-- A GPS fix with lat/lon/alt equal to `c8home` but geoid separation 5 m. -/
def c8gps : GPSPos := ⟨0, 0, 0, 5, 9, 1, 0, 0⟩

/-- Counterexample to C8 as stated: a fix equal to the home location (same
latitude, longitude and altitude) converts to NED = (0,0,-5), not (0,0,0),
because the geoid separation enters only on the GPS side. -/
theorem claim_C8_counterexample :
    c8gps.Latitude = c8home.Latitude ∧ c8gps.Longitude = c8home.Longitude ∧
    c8gps.Altitude = c8home.Altitude ∧
    getNED (computeT c8home) c8home c8gps = ⟨0, 0, -5⟩ ∧
    getNED (computeT c8home) c8home c8gps ≠ ⟨0, 0, 0⟩ := by
  refine ⟨rfl, rfl, rfl, ?_, ?_⟩
  · unfold getNED computeT c8home c8gps
    simp only [V3.mk.injEq]
    norm_num
  · unfold getNED computeT c8home c8gps
    simp only [V3.mk.injEq]
    norm_num

/-- A GPS fix identical to `c8home` with zero geoid separation. -/
def c8gps0 : GPSPos := ⟨0, 0, 0, 0, 9, 1, 0, 0⟩

/-- Witness for C8 at a concrete input. -/
theorem claim_C8_witness :
    c8gps0.Latitude = c8home.Latitude ∧
    c8gps0.Altitude + c8gps0.GeoidSeparation = c8home.Altitude ∧
    getNED (computeT c8home) c8home c8gps0 = ⟨0, 0, 0⟩ :=
  ⟨rfl, by norm_num [c8gps0, c8home],
   (claim_C8 c8home c8gps0).2 rfl rfl (by norm_num [c8gps0, c8home])⟩

/-! ## Claim C2: magnetometer correction gating (code bug) -/

/-- Modelled from the spec: the magnetic correction error it prescribes for a
cycle with a fresh, NaN-free magnetometer sample and a configured home
location — the cross product of the normalized measured field and the
normalized home field rotated into the body frame. -/
def specMagErr (q : Quat) (mag Be : V3) : V3 :=
  let brot := rotMult (quaternion2R q) Be
  let mag_len := Real.sqrt (normSqV3 mag)
  let bmag := Real.sqrt (normSqV3 brot)
  crossProduct ⟨mag.x / mag_len, mag.y / mag_len, mag.z / mag_len⟩
    ⟨brot.x / bmag, brot.y / bmag, brot.z / bmag⟩

/-- The C2 failing input: a non-first-run cycle with a fresh, NaN-free
magnetometer sample (1,0,0), home set with Be = (0,1,0), identity attitude. -/
def c2In : CFIn :=
  { wCFIn with
    first_run := false
    magFresh := true
    mag := ⟨1, 0, 0⟩
    home := ⟨true, ⟨0, 1, 0⟩, 0, 0, 0⟩ }

/-- C2 evaluated at the failing input: the source's inverted receive test
(`xQueueReceive(magQueue,...) != pdTRUE` at line 464) makes the cycle zero the
magnetic error exactly when a fresh valid sample and a home reference are
present, while the spec-prescribed cross-product error at this input is
(0,0,1) ≠ 0. -/
theorem claim_C2_bug :
    (cf_cycle testEm c2In wCFState).1 = 0 ∧
    (cf_cycle testEm c2In wCFState).2.mag_err = ⟨0, 0, 0⟩ ∧
    specMagErr wCFState.attitude.q c2In.mag c2In.home.Be = ⟨0, 0, 1⟩ ∧
    ((⟨0, 0, 1⟩ : V3) ≠ ⟨0, 0, 0⟩) := by
  refine ⟨?_, ?_, ?_, ?_⟩
  · simp [cf_cycle, c2In, wCFIn]
  · simp [cf_cycle, cf_mag_err, c2In, wCFIn]
  · norm_num [specMagErr, rotMult, quaternion2R, crossProduct, normSqV3,
      wCFState, c2In, wCFIn, idQuat, Real.sqrt_one]
  · simp only [ne_eq, V3.mk.injEq]
    norm_num

/-! ## Helper lemmas on the navigation-filter cycle -/

/-- The initialization block never invokes the correction step and passes no
availability mask. -/
theorem ins_init_block_trace (alg : INSAlgo) (em : ExtMath) (i : INSIn) (s : INSState) :
    (ins_init_block alg em i s).2.corrected = false ∧
    (ins_init_block alg em i s).2.sensors = SensorFlags.none := by
  unfold ins_init_block
  dsimp only
  split_ifs <;> exact ⟨rfl, rfl⟩

/-- The initialization block leaves the sticky gps-updated flag unchanged. -/
theorem ins_init_block_gps_flag (alg : INSAlgo) (em : ExtMath) (i : INSIn) (s : INSState) :
    (ins_init_block alg em i s).1.gps_updated = s.gps_updated := by
  unfold ins_init_block
  dsimp only
  split_ifs <;> rfl

/-- The main body stores the masked gps-updated flag it was given. -/
theorem ins_main_gps_flag (alg : INSAlgo) (em : ExtMath) (i : INSIn) (s : INSState)
    (mu bu gu gvu : Bool) :
    (ins_main alg em i s mu bu gu gvu).1.gps_updated = gu := by
  unfold ins_main
  rfl

/-- In outdoor mode the position-sensors bit reaches the correction step only
when the masked gps flag is set. -/
theorem ins_main_pos (alg : INSAlgo) (em : ExtMath) (i : INSIn) (s : INSState)
    (mu bu gvu : Bool) (hout : i.outdoor = true) :
    ∀ gu : Bool, (ins_main alg em i s mu bu gu gvu).2.sensors.pos = true → gu = true := by
  intro gu
  cases gu
  · intro h
    exfalso
    revert h
    unfold ins_main
    dsimp only
    simp [hout, apply_ite SensorFlags.pos, SensorFlags.none, INSTrace.none]
  · intro _
    rfl

/-! ## Claim C5: GPS gating -/

/-- Six satellites fail the decide-gate of line 758. -/
theorem sat6_gate : (decide ((7 : ℤ) ≤ 6)) = false := by decide

/-- In outdoor mode, a cleared masked gps flag means no position bit reaches
the correction step. -/
theorem ins_main_pos_false (alg : INSAlgo) (em : ExtMath) (i : INSIn) (s : INSState)
    (mu bu gvu : Bool) (hout : i.outdoor = true) (gu : Bool) (hgu : gu = false) :
    (ins_main alg em i s mu bu gu gvu).2.sensors.pos = false := by
  cases hcase : (ins_main alg em i s mu bu gu gvu).2.sensors.pos
  · rfl
  · have := ins_main_pos alg em i s mu bu gvu hout gu hcase
    rw [hgu] at this
    exact absurd this (by simp)

/-- C5: in every clean outdoor-mode cycle, the position-sensors bit is passed
to the correction step only if satellite count ≥ 7, PDOP ≤ 4.0 and the home
location is set; a pending fix with 6 satellites is ignored: no position
correction and the stored gps-updated flag ends the cycle cleared. -/
theorem claim_C5 (alg : INSAlgo) (em : ExtMath) (i : INSIn) (s : INSState)
    (hout : i.outdoor = true) (hnav : i.navAvailable = true)
    (hgt : i.gyroTimeout = false) (hat : i.accelTimeout = false)
    (hfr : i.first_run = false) :
    ((ins_cycle alg em i s).2.2.sensors.pos = true →
      i.gps.Satellites ≥ 7 ∧ i.gps.PDOP ≤ 4.0 ∧ i.home.hlSet = true) ∧
    (i.gps.Satellites = 6 →
      (ins_cycle alg em i s).2.2.sensors.pos = false ∧
      (ins_cycle alg em i s).2.1.gps_updated = false) := by
  unfold ins_cycle
  rw [if_neg (by simp [hnav]), if_neg (by simp [hgt, hat]), if_neg (by simp [hfr])]
  dsimp only
  constructor
  · intro hpos
    revert hpos
    split_ifs <;> intro hpos
    any_goals (rw [(ins_init_block_trace alg em i _).2] at hpos
               simp [SensorFlags.none] at hpos)
    any_goals (simp only [INSTrace.none] at hpos
               simp [SensorFlags.none] at hpos)
    all_goals (have hgu := ins_main_pos alg em i _ _ _ _ hout _ hpos
               simp only [Bool.and_eq_true, decide_eq_true_eq] at hgu
               exact ⟨hgu.2.1.1, hgu.2.1.2, hgu.2.2⟩)
  · intro hsat
    split_ifs <;> refine ⟨?_, ?_⟩ <;> (try dsimp only) <;>
      first
        | (rw [(ins_init_block_trace alg em i _).2]; rfl)
        | (exact ins_main_pos_false alg em i _ _ _ _ hout _
            (by rw [hsat]; simp [sat6_gate]))
        | (exact (ins_init_block_gps_flag alg em i _).trans
            (by dsimp only; rw [hsat]; simp [sat6_gate]))
        | (exact (ins_main_gps_flag alg em i _ _ _ _ _).trans
            (by rw [hsat]; simp [sat6_gate]))
        | (rw [hsat]; simp [sat6_gate])
        | rfl

/-- The C5 witness input: outdoor mode, a fresh GPS fix with 6 satellites. -/
def c5In : INSIn :=
  { wINSIn with
    first_run := false
    outdoor := true
    gpsFresh := true
    gps := { wGPS with Satellites := 6, PDOP := 2 }
    home := ⟨true, ⟨1, 0, 0⟩, 0, 0, 0⟩ }

/-- An initialized navigation-filter state. -/
def c5S : INSState := { wINSState with inited := true }

/-- Witness for C5: with 6 satellites the pending fix is ignored. -/
theorem claim_C5_witness :
    c5In.gps.Satellites = 6 ∧
    (ins_cycle testAlg testEm c5In c5S).2.2.sensors.pos = false ∧
    (ins_cycle testAlg testEm c5In c5S).2.1.gps_updated = false :=
  ⟨rfl, (claim_C5 testAlg testEm c5In c5S rfl rfl rfl rfl rfl).2 rfl⟩

/-! ## Claim C6: initialization stalls without barometer samples -/

/-- One clean non-first-run cycle with no barometer sample: an uninitialized
filter stays uninitialized at stage 0, its baro flag stays clear, and the
attitude alarm reads error. -/
theorem ins_c6_step (alg : INSAlgo) (em : ExtMath) (i : INSIn) (s : INSState)
    (hb : i.baroFresh = false) (hnav : i.navAvailable = true)
    (hgt : i.gyroTimeout = false) (hat : i.accelTimeout = false)
    (hfr : i.first_run = false)
    (hi : s.inited = false) (hst : s.init_stage = 0) (hbu : s.baro_updated = false) :
    (ins_cycle alg em i s).2.1.inited = false ∧
    (ins_cycle alg em i s).2.1.init_stage = 0 ∧
    (ins_cycle alg em i s).2.1.baro_updated = false ∧
    (ins_cycle alg em i s).2.1.alarm = .error := by
  unfold ins_cycle
  rw [if_neg (by simp [hnav]), if_neg (by simp [hgt, hat]), if_neg (by simp [hfr])]
  dsimp only
  split_ifs <;>
    first
      | exact absurd (show s.inited = true by assumption) (by simp [hi])
      | (refine ⟨hi, hst, ?_, rfl⟩
         simp [hbu, hb])
      | (exfalso; simp_all [hbu, hb])

/-- Run form of the stall: the invariant holds after any number of such
cycles, and the alarm reads error after each nonempty run. -/
theorem ins_c6_run (alg : INSAlgo) (em : ExtMath) :
    ∀ (inputs : List INSIn) (s : INSState),
      (∀ i ∈ inputs, i.baroFresh = false ∧ i.navAvailable = true ∧
        i.gyroTimeout = false ∧ i.accelTimeout = false ∧ i.first_run = false) →
      s.inited = false → s.init_stage = 0 → s.baro_updated = false →
      (ins_run alg em inputs s).inited = false ∧
      (ins_run alg em inputs s).init_stage = 0 ∧
      (ins_run alg em inputs s).baro_updated = false ∧
      (inputs ≠ [] → (ins_run alg em inputs s).alarm = .error) := by
  intro inputs
  induction inputs with
  | nil =>
    intro s hin hi hst hbu
    exact ⟨hi, hst, hbu, fun h => absurd rfl h⟩
  | cons a rest ih =>
    intro s hin hi hst hbu
    have ha := hin a (List.mem_cons_self a rest)
    have hstep := ins_c6_step alg em a s ha.1 ha.2.1 ha.2.2.1 ha.2.2.2.1 ha.2.2.2.2
      hi hst hbu
    have hrest := ih ((ins_cycle alg em a s).2.1)
      (fun j hj => hin j (List.mem_cons_of_mem a hj))
      hstep.1 hstep.2.1 hstep.2.2.1
    unfold ins_run
    refine ⟨hrest.1, hrest.2.1, hrest.2.2.1, fun _ => ?_⟩
    cases rest with
    | nil => exact hstep.2.2.2
    | cons b tail => exact hrest.2.2.2 (by simp)

/-- C6: over any run of clean non-first-run cycles in which the barometer
queue never delivers a sample, initialization never completes — init_stage
stays 0 and the filter is never marked initialized — and after every cycle of
the run the attitude alarm reads error. -/
theorem claim_C6 (alg : INSAlgo) (em : ExtMath) (inputs : List INSIn) (s : INSState)
    (hin : ∀ i ∈ inputs, i.baroFresh = false ∧ i.navAvailable = true ∧
      i.gyroTimeout = false ∧ i.accelTimeout = false ∧ i.first_run = false)
    (hi : s.inited = false) (hst : s.init_stage = 0) (hbu : s.baro_updated = false) :
    ∀ pre suf, inputs = pre ++ suf →
      (ins_run alg em pre s).inited = false ∧
      (ins_run alg em pre s).init_stage = 0 ∧
      (pre ≠ [] → (ins_run alg em pre s).alarm = .error) := by
  intro pre suf heq
  have hpre : ∀ i ∈ pre, i.baroFresh = false ∧ i.navAvailable = true ∧
      i.gyroTimeout = false ∧ i.accelTimeout = false ∧ i.first_run = false := by
    intro j hj
    exact hin j (by rw [heq]; exact List.mem_append_left suf hj)
  have h := ins_c6_run alg em pre s hpre hi hst hbu
  exact ⟨h.1, h.2.1, h.2.2.2⟩

/-- A clean non-first-run input with no barometer sample. -/
def c6In : INSIn := { wINSIn with first_run := false, magFresh := true }

/-- Witness for C6: three barometer-less cycles leave the filter stalled with
the error alarm raised. -/
theorem claim_C6_witness :
    (ins_run testAlg testEm [c6In, c6In, c6In] wINSState).inited = false ∧
    (ins_run testAlg testEm [c6In, c6In, c6In] wINSState).init_stage = 0 ∧
    (ins_run testAlg testEm [c6In, c6In, c6In] wINSState).alarm = .error := by
  have h := claim_C6 testAlg testEm [c6In, c6In, c6In] wINSState
    (by intro j hj; simp at hj; rw [hj]; exact ⟨rfl, rfl, rfl, rfl, rfl⟩)
    rfl rfl rfl [c6In, c6In, c6In] [] rfl
  exact ⟨h.1, h.2.1, h.2.2 (by simp)⟩

/-! ## Claim C7: initialization stage counting -/

/-- The initialization block advances the stage counter by one, marks the
filter initialized exactly when the new stage exceeds 10, and runs a
prediction exactly when the incoming stage was positive. -/
theorem ins_init_block_stage (alg : INSAlgo) (em : ExtMath) (i : INSIn) (s : INSState)
    (hi : s.inited = false) :
    (ins_init_block alg em i s).1.init_stage = s.init_stage + 1 ∧
    ((ins_init_block alg em i s).1.inited = true ↔ s.init_stage + 1 > 10) ∧
    (s.init_stage > 0 → (ins_init_block alg em i s).2.predicted = true) ∧
    (s.init_stage = 0 → (ins_init_block alg em i s).2.predicted = false) := by
  unfold ins_init_block
  dsimp only
  split_ifs <;>
    (try dsimp only) <;>
    refine ⟨rfl, ?_, fun hpos => ?_, fun hzero => ?_⟩ <;>
    first
      | rfl
      | (simp only [hi]; constructor <;> intro h <;> first | assumption | cases h | omega)
      | (constructor <;> intro h <;> first | assumption | rfl)
      | omega
      | (exfalso; omega)
      | simp_all

/-- In indoor mode the main body always applies a correction (the indoor
branch unconditionally sets position/velocity availability bits). -/
theorem ins_main_indoor_corrects (alg : INSAlgo) (em : ExtMath) (i : INSIn)
    (s : INSState) (mu bu gu gvu : Bool) (hout : i.outdoor = false) :
    (ins_main alg em i s mu bu gu gvu).2.corrected = true := by
  unfold ins_main
  dsimp only
  simp [hout, SensorFlags.any, SensorFlags.none]

/-- Per-cycle conditions for a clean indoor initialization cycle with
magnetometer and barometer data available. -/
def C7In (i : INSIn) : Prop :=
  i.navAvailable = true ∧ i.gyroTimeout = false ∧ i.accelTimeout = false ∧
  i.first_run = false ∧ i.outdoor = false ∧ i.magFresh = true ∧
  i.baroFresh = true ∧ i.magHasNaN = false ∧ i.home.Be.x ≠ 0

/-- One clean indoor initialization cycle: the stage advances by one,
prediction runs exactly when the incoming stage was positive, no correction
runs, and the filter is initialized exactly when the new stage exceeds 10. -/
theorem ins_c7_step (alg : INSAlgo) (em : ExtMath) (i : INSIn) (s : INSState)
    (hc : C7In i) (hi : s.inited = false) :
    (ins_cycle alg em i s).2.1.init_stage = s.init_stage + 1 ∧
    ((ins_cycle alg em i s).2.1.inited = true ↔ s.init_stage + 1 > 10) ∧
    (s.init_stage > 0 → (ins_cycle alg em i s).2.2.predicted = true) ∧
    (s.init_stage = 0 → (ins_cycle alg em i s).2.2.predicted = false) ∧
    (ins_cycle alg em i s).2.2.corrected = false := by
  obtain ⟨hnav, hgt, hat, hfr, hout, hmf, hbf, hnan, hbe⟩ := hc
  have hbed : decide (i.home.Be.x = 0) = false := by simp [hbe]
  have hbed2 : decide (i.home.Be.x ≠ 0) = true := by simp [hbe]
  unfold ins_cycle
  rw [if_neg (by simp [hnav]), if_neg (by simp [hgt, hat]), if_neg (by simp [hfr])]
  dsimp only
  simp only [hi, hmf, hbf, hnan, hout, hbed, hbed2, Bool.false_eq_true, Bool.or_true,
    Bool.true_or, Bool.not_false, Bool.and_true, Bool.true_and, if_false, if_true,
    not_false_iff, and_true, true_and, or_true, eq_self_iff_true]
  have key : ∀ (t : INSState), t.inited = false → t.init_stage = s.init_stage →
      (ins_init_block alg em i t).1.init_stage = s.init_stage + 1 ∧
      ((ins_init_block alg em i t).1.inited = true ↔ s.init_stage + 1 > 10) ∧
      (s.init_stage > 0 → (ins_init_block alg em i t).2.predicted = true) ∧
      (s.init_stage = 0 → (ins_init_block alg em i t).2.predicted = false) ∧
      (ins_init_block alg em i t).2.corrected = false := by
    intro t ht hts
    have h := ins_init_block_stage alg em i t ht
    rw [hts] at h
    exact ⟨h.1, h.2.1, h.2.2.1, h.2.2.2, (ins_init_block_trace alg em i t).1⟩
  refine key _ ?_ ?_
  · rfl
  · rfl

/-- Run form of initialization: starting uninitialized at a stage between 0
and 10, a run of at most 11 - stage clean indoor cycles adds its length to
the stage, and the filter is initialized exactly when stage 11 is reached. -/
theorem ins_c7_run (alg : INSAlgo) (em : ExtMath) :
    ∀ (inputs : List INSIn) (s : INSState),
      (∀ i ∈ inputs, C7In i) → s.inited = false →
      0 ≤ s.init_stage → s.init_stage ≤ 10 →
      s.init_stage + inputs.length ≤ 11 →
      (ins_run alg em inputs s).init_stage = s.init_stage + inputs.length ∧
      ((ins_run alg em inputs s).inited = true ↔
        s.init_stage + (inputs.length : ℤ) = 11) := by
  intro inputs
  induction inputs with
  | nil =>
    intro s hin hi h0 h10 hlen
    simp only [ins_run, List.length_nil, Nat.cast_zero, add_zero,
      eq_self_iff_true, true_and]
    rw [hi]
    constructor
    · intro h
      cases h
    · intro h
      omega
  | cons a rest ih =>
    intro s hin hi h0 h10 hlen
    have hstep := ins_c7_step alg em a s (hin a (List.mem_cons_self a rest)) hi
    unfold ins_run
    by_cases hgt10 : s.init_stage + 1 > 10
    · have hrest : rest = [] := by
        rw [List.length_cons] at hlen
        have : rest.length = 0 := by omega
        exact List.length_eq_zero.mp this
      subst hrest
      unfold ins_run
      refine ⟨?_, ?_⟩
      · rw [hstep.1]
        simp
      · rw [hstep.2.1]
        simp only [List.length_cons, List.length_nil]
        constructor <;> intro <;> omega
    · have hinited : (ins_cycle alg em a s).2.1.inited = false := by
        cases hcase : (ins_cycle alg em a s).2.1.inited
        · rfl
        · exact absurd (hstep.2.1.mp hcase) hgt10
      have hr := ih ((ins_cycle alg em a s).2.1)
        (fun j hj => hin j (List.mem_cons_of_mem a hj)) hinited
        (by rw [hstep.1]; omega) (by rw [hstep.1]; omega)
        (by rw [hstep.1]; rw [List.length_cons] at hlen; push_cast at hlen ⊢; omega)
      refine ⟨?_, ?_⟩
      · rw [hr.1, hstep.1]
        rw [List.length_cons]
        push_cast
        ring
      · rw [hr.2, hstep.1]
        rw [List.length_cons]
        constructor <;> intro <;> push_cast at * <;> omega

/-- C7 (amended): initialization takes eleven stages (0 through 10), not ten:
stages 1 through 10 run pure prediction with no correction, a run of at most
ten clean cycles leaves the filter uninitialized, eleven clean cycles from
stage 0 initialize it, and correction is applied on initialized cycles. -/
theorem claim_C7 :
    (∀ (alg : INSAlgo) (em : ExtMath) (inputs : List INSIn) (s : INSState),
      (∀ i ∈ inputs, C7In i) → s.inited = false → s.init_stage = 0 →
      inputs.length = 11 →
      (ins_run alg em inputs s).inited = true ∧
      (ins_run alg em inputs s).init_stage = 11) ∧
    (∀ (alg : INSAlgo) (em : ExtMath) (inputs : List INSIn) (s : INSState),
      (∀ i ∈ inputs, C7In i) → s.inited = false → s.init_stage = 0 →
      inputs.length ≤ 10 →
      (ins_run alg em inputs s).inited = false) ∧
    (∀ (alg : INSAlgo) (em : ExtMath) (i : INSIn) (s : INSState), C7In i →
      s.inited = false → 1 ≤ s.init_stage → s.init_stage ≤ 10 →
      (ins_cycle alg em i s).2.2.predicted = true ∧
      (ins_cycle alg em i s).2.2.corrected = false) ∧
    (∀ (alg : INSAlgo) (em : ExtMath) (i : INSIn) (s : INSState), C7In i →
      s.inited = true →
      (ins_cycle alg em i s).2.2.corrected = true) := by
  refine ⟨?_, ?_, ?_, ?_⟩
  · intro alg em inputs s hin hi hst hlen
    have h := ins_c7_run alg em inputs s hin hi (by omega) (by omega)
      (by rw [hst, hlen]; norm_num)
    rw [hst, hlen] at h
    refine ⟨h.2.mpr (by norm_num), by rw [h.1]; norm_num⟩
  · intro alg em inputs s hin hi hst hlen
    have h := ins_c7_run alg em inputs s hin hi (by omega) (by omega)
      (by rw [hst]; omega)
    cases hcase : (ins_run alg em inputs s).inited
    · rfl
    · have := h.2.mp hcase
      rw [hst] at this
      omega
  · intro alg em i s hc hi h1 h10
    have hstep := ins_c7_step alg em i s hc hi
    exact ⟨hstep.2.2.1 (by omega), hstep.2.2.2.2⟩
  · intro alg em i s hc hi
    obtain ⟨hnav, hgt, hat, hfr, hout, hmf, hbf, hnan, hbe⟩ := hc
    unfold ins_cycle
    rw [if_neg (by simp [hnav]), if_neg (by simp [hgt, hat]), if_neg (by simp [hfr])]
    dsimp only
    simp only [hi, eq_self_iff_true, if_true, not_true, false_and, if_false]
    exact ins_main_indoor_corrects alg em i _ _ _ _ _ hout

/-- A clean indoor initialization input. -/
def c7In : INSIn :=
  { wINSIn with
    first_run := false
    magFresh := true
    baroFresh := true
    home := ⟨false, ⟨1, 0, 0⟩, 0, 0, 0⟩ }

/-- The concrete input satisfies the C7 cycle conditions. -/
theorem c7In_ok : C7In c7In :=
  ⟨rfl, rfl, rfl, rfl, rfl, rfl, rfl, rfl, by norm_num [c7In, wINSIn]⟩

/-- Counterexample to C7 as stated: after ten initialization cycles (stage 0
plus nine prediction stages) the filter is NOT yet marked initialized — the
stage counter reads 10 and `init_stage > 10` has not fired; an eleventh
initialization cycle is required. -/
theorem claim_C7_counterexample :
    (List.replicate 10 c7In).length = 10 ∧
    (ins_run testAlg testEm (List.replicate 10 c7In) wINSState).inited = false ∧
    (ins_run testAlg testEm (List.replicate 10 c7In) wINSState).init_stage = 10 := by
  have h := ins_c7_run testAlg testEm (List.replicate 10 c7In) wINSState
    (fun i hm => by rw [List.eq_of_mem_replicate hm]; exact c7In_ok)
    rfl (by norm_num [wINSState]) (by norm_num [wINSState]) (by simp [wINSState])
  refine ⟨by simp, ?_, ?_⟩
  · cases hcase : (ins_run testAlg testEm (List.replicate 10 c7In) wINSState).inited
    · rfl
    · exfalso
      have h2 := h.2.mp hcase
      norm_num [wINSState] at h2
  · rw [h.1]
    norm_num [wINSState]

/-- A stage-5 uninitialized state and an initialized state for the witness. -/
def c7S5 : INSState := { wINSState with init_stage := 5 }

/-- An initialized navigation-filter state for the C7 witness. -/
def c7Sinit : INSState := { wINSState with inited := true }

/-- Witness for C7 at concrete inputs. -/
theorem claim_C7_witness :
    (List.replicate 11 c7In).length = 11 ∧
    (ins_run testAlg testEm (List.replicate 11 c7In) wINSState).inited = true ∧
    (ins_cycle testAlg testEm c7In c7S5).2.2.predicted = true ∧
    (ins_cycle testAlg testEm c7In c7S5).2.2.corrected = false ∧
    (ins_cycle testAlg testEm c7In c7Sinit).2.2.corrected = true := by
  have h1 := (claim_C7.1 testAlg testEm (List.replicate 11 c7In) wINSState
    (fun i hm => by rw [List.eq_of_mem_replicate hm]; exact c7In_ok) rfl rfl
    (by simp)).1
  have h3 := claim_C7.2.2.1 testAlg testEm c7In c7S5 c7In_ok rfl
    (by norm_num [c7S5]) (by norm_num [c7S5])
  have h4 := claim_C7.2.2.2 testAlg testEm c7In c7Sinit c7In_ok rfl
  exact ⟨by simp, h1, h3.1, h3.2, h4⟩

/-! ## Claim C9: gyro bias hot-reload -/

/-- The main body with a pending bias override: the override (converted to
radians) is written into the filter state, the flag is consumed, and — when
bias correction is enabled — the published record is then refreshed from the
filter's bias estimate in the same cycle; it stays untouched only when bias
correction is disabled. -/
theorem ins_main_bias (alg : INSAlgo) (em : ExtMath) (i : INSIn) (s : INSState)
    (mu bu gu gvu : Bool) (hb : s.gyroBiasSettingsUpdated = true) :
    (ins_main alg em i s mu bu gu gvu).2.setBias =
      some ⟨s.gyrosBias.x * Real.pi / 180, s.gyrosBias.y * Real.pi / 180,
        s.gyrosBias.z * Real.pi / 180⟩ ∧
    (ins_main alg em i s mu bu gu gvu).1.gyroBiasSettingsUpdated = false ∧
    (i.biasCorrectGyro = true →
      (ins_main alg em i s mu bu gu gvu).1.gyrosBias =
        ⟨(ins_main alg em i s mu bu gu gvu).1.nav.gyro_bias.x * 180 / Real.pi,
         (ins_main alg em i s mu bu gu gvu).1.nav.gyro_bias.y * 180 / Real.pi,
         (ins_main alg em i s mu bu gu gvu).1.nav.gyro_bias.z * 180 / Real.pi⟩) ∧
    (i.biasCorrectGyro = false →
      (ins_main alg em i s mu bu gu gvu).1.gyrosBias = s.gyrosBias) := by
  unfold ins_main
  dsimp only
  simp only [hb, if_true, eq_self_iff_true, Bool.not_false, Bool.and_true, true_and]
  refine ⟨fun hbc => ?_, fun hbc => ?_⟩ <;>
    simp only [hbc, if_true, if_false, Bool.false_eq_true, eq_self_iff_true]

/-- C9 (amended): in every clean initialized cycle with a pending
configuration-pushed gyro bias, the filter's internal bias state is
overwritten with the pushed value converted to radians and the pending flag
is consumed — but, contrary to the claim as stated, when bias correction is
enabled the published gyro bias record IS refreshed from the filter's own
bias estimate at the end of that same cycle (the `!gyroBiasSettingsUpdated`
guard at line 999 sees the flag already cleared by line 897); the record is
left untouched only when bias correction is disabled. -/
theorem claim_C9 (alg : INSAlgo) (em : ExtMath) (i : INSIn) (s : INSState)
    (hnav : i.navAvailable = true) (hgt : i.gyroTimeout = false)
    (hat : i.accelTimeout = false) (hfr : i.first_run = false)
    (hi : s.inited = true) (hb : s.gyroBiasSettingsUpdated = true) :
    (ins_cycle alg em i s).2.2.setBias =
      some ⟨s.gyrosBias.x * Real.pi / 180, s.gyrosBias.y * Real.pi / 180,
        s.gyrosBias.z * Real.pi / 180⟩ ∧
    (ins_cycle alg em i s).2.1.gyroBiasSettingsUpdated = false ∧
    (i.biasCorrectGyro = true →
      (ins_cycle alg em i s).2.1.gyrosBias =
        ⟨(ins_cycle alg em i s).2.1.nav.gyro_bias.x * 180 / Real.pi,
         (ins_cycle alg em i s).2.1.nav.gyro_bias.y * 180 / Real.pi,
         (ins_cycle alg em i s).2.1.nav.gyro_bias.z * 180 / Real.pi⟩) ∧
    (i.biasCorrectGyro = false →
      (ins_cycle alg em i s).2.1.gyrosBias = s.gyrosBias) := by
  unfold ins_cycle
  rw [if_neg (by simp [hnav]), if_neg (by simp [hgt, hat]), if_neg (by simp [hfr])]
  dsimp only
  simp only [hi, eq_self_iff_true, if_true, not_true, false_and, if_false]
  exact ins_main_bias alg em i _ _ _ _ _ hb

/-- An insgps instance whose prediction step moves the internal gyro bias to
π/180 rad/s per axis, to make the end-of-cycle republication observable. -/
def c9Alg : INSAlgo :=
  ⟨⟨idQuat, ⟨0, 0, 0⟩, ⟨0, 0, 0⟩, ⟨0, 0, 0⟩⟩,
   fun n _ _ _ => { n with gyro_bias := ⟨Real.pi / 180, Real.pi / 180, Real.pi / 180⟩ },
   fun n _ _ _ _ _ => n⟩

/-- A clean indoor cycle input with bias correction enabled. -/
def c9In : INSIn := { wINSIn with first_run := false, biasCorrectGyro := true }

/-- An initialized state with a pending bias override and zero published bias. -/
def c9S : INSState :=
  { wINSState with inited := true, gyroBiasSettingsUpdated := true }

/-- Counterexample to C9 as stated: in the very cycle that consumes a pending
bias override, the published gyro bias record IS overwritten from the
filter's own estimate (here it changes from (0,0,0) to (1,1,1) deg/s), since
the publish guard reads the already-cleared flag. -/
theorem claim_C9_counterexample :
    c9S.gyroBiasSettingsUpdated = true ∧
    c9S.gyrosBias = ⟨0, 0, 0⟩ ∧
    (ins_cycle c9Alg testEm c9In c9S).2.1.gyrosBias = ⟨1, 1, 1⟩ ∧
    (ins_cycle c9Alg testEm c9In c9S).2.1.gyrosBias ≠ c9S.gyrosBias := by
  have hpi : Real.pi ≠ 0 := Real.pi_ne_zero
  have heval : (ins_cycle c9Alg testEm c9In c9S).2.1.gyrosBias = ⟨1, 1, 1⟩ := by
    unfold ins_cycle
    rw [if_neg (by simp [c9In, wINSIn]), if_neg (by simp [c9In, wINSIn]),
      if_neg (by simp [c9In, wINSIn])]
    dsimp only
    simp only [c9S, wINSState, eq_self_iff_true, if_true, not_true, false_and, if_false]
    unfold ins_main
    dsimp only
    simp only [c9In, wINSIn, c9Alg, if_true, eq_self_iff_true, Bool.not_false,
      Bool.and_true]
    apply V3.ext <;> field_simp
  refine ⟨rfl, rfl, heval, ?_⟩
  rw [heval]
  intro hcontra
  have := congrArg V3.x hcontra
  simp [c9S, wINSState] at this

/-- Witness for C9 at concrete inputs (bias correction disabled variant). -/
def c9InNoBC : INSIn := { wINSIn with first_run := false, biasCorrectGyro := false }

/-- Witness for C9: the pending override is applied and consumed. -/
theorem claim_C9_witness :
    c9S.gyroBiasSettingsUpdated = true ∧
    (ins_cycle c9Alg testEm c9InNoBC c9S).2.2.setBias =
      some ⟨c9S.gyrosBias.x * Real.pi / 180, c9S.gyrosBias.y * Real.pi / 180,
        c9S.gyrosBias.z * Real.pi / 180⟩ ∧
    (ins_cycle c9Alg testEm c9InNoBC c9S).2.1.gyroBiasSettingsUpdated = false ∧
    (ins_cycle c9Alg testEm c9InNoBC c9S).2.1.gyrosBias = c9S.gyrosBias := by
  have h := claim_C9 c9Alg testEm c9InNoBC c9S rfl rfl rfl rfl rfl rfl
  exact ⟨rfl, h.1, h.2.1, h.2.2.2 rfl⟩

end DRonin
